import Mathlib

/-!
Verification of the quiz-generator script: session quota state,
question generation with its failure branches, the countdown loop
of the quiz, and the scoring rule.
-/

namespace QuizGen

/-- Session state kept by the framework: the per-day question counter and
the date string of the last counter reset. -/
structure SessionState where
  question_count : Nat
  last_reset : String
deriving Repr, DecidableEq

/-- State installed when a fresh session starts: counter 0, last reset today. -/
def initialState (current_date : String) : SessionState :=
  { question_count := 0, last_reset := current_date }

/-- Embeds `reset_question_limit`: if the stored date differs from the current
date, set the counter to 0 and store the current date; otherwise do nothing. -/
def reset_question_limit (s : SessionState) (current_date : String) : SessionState :=
  if s.last_reset ≠ current_date then
    { question_count := 0, last_reset := current_date }
  else s

/-- A multiple-choice question as parsed from the generated JSON payload:
text, the list of options, and the correct-answer letter string. -/
structure Question where
  question : String
  options : List String
  answer : String
deriving Repr, DecidableEq

/-- A JSON object, modelled as an association list of string fields. -/
def JsonDict : Type := List (String × String)

instance : DecidableEq JsonDict := by
  unfold JsonDict
  infer_instance

/-- Python `d.get(key, default)` on a JSON object. -/
def dictGet (d : JsonDict) (key default : String) : String :=
  match d.lookup key with
  | some v => v
  | none => default

/-- The shapes the decoded HTTP response body can take: a JSON array of
objects, a JSON object, or another JSON value (split by Python truthiness). -/
inductive ResponseJson where
  | jlist (items : List JsonDict)
  | jdict (fields : JsonDict)
  | otherTruthy
  | otherFalsy
deriving DecidableEq

/-- Python truthiness test `not response_json` on the decoded body. -/
def jsonFalsy : ResponseJson → Bool
  | .jlist items => items.isEmpty
  | .jdict fields => match fields with
    | [] => true
    | _ :: _ => false
  | .otherTruthy => false
  | .otherFalsy => true

/-- The `isinstance` branch ladder extracting `generated_text`:
the field of the first element for a non-empty list, the field of the object for a dict,
`none` when the format is unexpected (neither branch applies). -/
def extractGeneratedText : ResponseJson → Option String
  | .jlist (item :: _) => some (dictGet item "generated_text" "")
  | .jlist [] => none
  | .jdict fields => some (dictGet fields "generated_text" "")
  | .otherTruthy => none
  | .otherFalsy => none

/-- Outcome of `requests.post`: a raised request exception, or a response
with a status code and a decoded JSON body. -/
inductive HttpResult where
  | exc (msg : String)
  | response (status : Nat) (body : ResponseJson)
deriving DecidableEq

/-- What `generate_questions` produces: the session state after the call,
the returned question list, and the error strings displayed. -/
structure GenResult where
  state : SessionState
  questions : List Question
  errors : List String
deriving DecidableEq

/-- The part of `generate_questions` after the entry call to
`reset_question_limit`: `s` is the session state already reset for the day.
`decode` stands for `json.loads` applied to the generated text (`none` models
a `json.JSONDecodeError`); `api` is the outcome of the HTTP call. Mirrors the
source branch for branch: quota check, status-code check, empty-body check,
format ladder, emptiness check of the generated text, JSON decode. -/
def generate_questions_after_reset (decode : String → Option (List Question))
    (s : SessionState) (num_questions : Nat) (api : HttpResult) : GenResult :=
  if s.question_count + num_questions > 300 then
    { state := s, questions := [],
      errors := ["Daily limit reached! You can generate only 300 questions per day. Try again tomorrow."] }
  else
    match api with
    | .exc msg =>
        { state := s, questions := [], errors := ["API request error: " ++ msg] }
    | .response status body =>
        if status ≠ 200 then
          { state := s, questions := [],
            errors := ["Hugging Face API request failed. Status code: " ++ toString status] }
        else if jsonFalsy body then
          { state := s, questions := [],
            errors := ["Received an empty response from Hugging Face API. Please try again later."] }
        else
          match extractGeneratedText body with
          | none =>
              { state := s, questions := [],
                errors := ["Unexpected response format from Hugging Face API."] }
          | some generated_text =>
              if generated_text ≠ "" then
                match decode generated_text with
                | some questions =>
                    { state := { s with question_count := s.question_count + num_questions },
                      questions := questions, errors := [] }
                | none =>
                    { state := s, questions := [],
                      errors := ["Error decoding JSON response. The API may not have returned structured data."] }
              else
                { state := s, questions := [],
                  errors := ["No questions generated. Please try again later."] }

/-- Embeds `generate_questions`: the daily reset at entry, then the quota
check, the HTTP call and the response handling. -/
def generate_questions (decode : String → Option (List Question))
    (current_date : String) (s0 : SessionState) (num_questions : Nat)
    (api : HttpResult) : GenResult :=
  generate_questions_after_reset decode (reset_question_limit s0 current_date)
    num_questions api

/-- A concrete stand-in for `json.loads` that always decodes to the empty
question list; used to exercise the success path on concrete inputs. -/
def constDecode : String → Option (List Question) := fun _ => some []

/-- The radio label built for option `i`: the letter `chr(65+i)`, a dot,
a space, and the option text. -/
def optionLabel (i : Nat) (opt : String) : String :=
  String.singleton (Char.ofNat (65 + i)) ++ ". " ++ opt

/-- One iteration of the scoring loop body: `answer[0] == correct` adds 2,
a differing selected letter subtracts 0.66, an unanswered question leaves
the score unchanged. `a.take 1` embeds the Python expression `answer[0]` as a string. -/
def scoreStep (q : Question) (answer : Option String) (score : ℚ) : ℚ :=
  match answer with
  | some a => if a.take 1 = q.answer then score + 2 else score - 0.66
  | none => score

/-- The scoring loop of `conduct_quiz`: fold `scoreStep` over the questions
paired with the recorded responses, starting from 0. -/
def computeScore (qs : List Question) (responses : List (Option String)) : ℚ :=
  (qs.zip responses).foldl (fun score p => scoreStep p.1 p.2 score) 0

/-- Spec-side per-question contribution: +2 for a matching selected letter,
-0.66 for a differing one, 0 for no selection. -/
def questionScore (q : Question) (answer : Option String) : ℚ :=
  match answer with
  | some a => if a.take 1 = q.answer then 2 else -0.66
  | none => 0

/-- Whether a response selects the correct letter. -/
def answeredCorrectly (q : Question) (answer : Option String) : Bool :=
  match answer with
  | some a => a.take 1 == q.answer
  | none => false

/-- Whether a response selects a wrong letter (answered but incorrect). -/
def answeredWrongly (q : Question) (answer : Option String) : Bool :=
  match answer with
  | some a => a.take 1 != q.answer
  | none => false

/-- The maximum displayed beside the final score: `num_questions * 2`. -/
def maxDisplayedScore (num_questions : Nat) : ℚ := num_questions * 2

/-- Embeds the countdown `while` loop of `conduct_quiz`. Time is in whole
seconds; each iteration sleeps one second (`t + 1`), and `submit_clicked`
is the button value fixed at loop entry. Returns the time at loop exit and
the `submitted` flag. -/
def countdown_loop (end_time : Nat) (submit_clicked : Bool) (t : Nat)
    (submitted : Bool) : Nat × Bool :=
  if h : t < end_time ∧ submitted = false then
    if submit_clicked then (t + 1, true)
    else countdown_loop end_time submit_clicked (t + 1) submitted
  else (t, submitted)
termination_by end_time - t
decreasing_by
  simp_wf
  omega

/-- The auto-submit check after the loop: if the deadline has passed and the
quiz is not submitted, set `submitted` to true. -/
def auto_submit (end_time : Nat) (t : Nat) (submitted : Bool) : Bool :=
  if end_time ≤ t ∧ submitted = false then true else submitted

/-- The whole countdown phase: `submitted` is initialised to false, the loop
runs, then the auto-submit check fires. Returns exit time and final flag. -/
def run_countdown (end_time : Nat) (submit_clicked : Bool) (t0 : Nat) : Nat × Bool :=
  let r := countdown_loop end_time submit_clicked t0 false
  (r.1, auto_submit end_time r.1 r.2)

/-- The total time allotted to the quiz: `num_questions * 15` seconds. -/
def total_time (num_questions : Nat) : Nat := num_questions * 15

/-! ## Helper lemmas -/

lemma scoreStep_eq (q : Question) (a : Option String) (sc : ℚ) :
    scoreStep q a sc = sc + questionScore q a := by
  cases a with
  | none => simp [scoreStep, questionScore]
  | some a =>
      simp only [scoreStep, questionScore]
      split <;> ring

lemma foldl_scoreStep (l : List (Question × Option String)) (c : ℚ) :
    l.foldl (fun score p => scoreStep p.1 p.2 score) c
      = c + (l.map (fun p => questionScore p.1 p.2)).sum := by
  induction l generalizing c with
  | nil => simp
  | cons p l ih =>
      simp only [List.foldl_cons]
      rw [scoreStep_eq, ih, List.map_cons, List.sum_cons]
      ring

lemma computeScore_eq_sum (qs : List Question) (rs : List (Option String)) :
    computeScore qs rs = ((qs.zip rs).map (fun p => questionScore p.1 p.2)).sum := by
  simp [computeScore, foldl_scoreStep]

lemma list_sum_nonpos (l : List ℚ) (h : ∀ x ∈ l, x ≤ 0) : l.sum ≤ 0 := by
  induction l with
  | nil => simp
  | cons a l ih =>
      simp only [List.sum_cons]
      have ha := h a (List.mem_cons_self a l)
      have hl := ih (fun x hx => h x (List.mem_cons_of_mem _ hx))
      linarith

lemma list_sum_neg (l : List ℚ) (hle : ∀ x ∈ l, x ≤ 0) (hlt : ∃ x ∈ l, x < 0) :
    l.sum < 0 := by
  induction l with
  | nil => rcases hlt with ⟨x, hx, _⟩; simp at hx
  | cons a l ih =>
      rcases hlt with ⟨x, hx, hxneg⟩
      rcases List.mem_cons.mp hx with rfl | hx
      · have : l.sum ≤ 0 := list_sum_nonpos l (fun x hx => hle x (List.mem_cons_of_mem _ hx))
        simp only [List.sum_cons]
        linarith
      · have ha : a ≤ 0 := hle a (List.mem_cons_self a l)
        have : l.sum < 0 :=
          ih (fun y hy => hle y (List.mem_cons_of_mem _ hy)) ⟨x, hx, hxneg⟩
        simp only [List.sum_cons]
        linarith

lemma reset_question_limit_count_le (s : SessionState) (d : String)
    (h : s.question_count ≤ 300) :
    (reset_question_limit s d).question_count ≤ 300 := by
  unfold reset_question_limit
  split
  · exact Nat.zero_le 300
  · exact h

/-- Master case analysis of `generate_questions_after_reset`: every run is
either the success branch (no error, counter charged by `num_questions`, the
quota respected, the decoded payload returned) or a failure branch (an error
displayed, the state untouched, the empty list returned). -/
lemma generate_questions_after_reset_spec (decode : String → Option (List Question))
    (s : SessionState) (n : Nat) (api : HttpResult) :
    ((generate_questions_after_reset decode s n api).errors = [] ∧
      (generate_questions_after_reset decode s n api).state
        = { question_count := s.question_count + n, last_reset := s.last_reset } ∧
      s.question_count + n ≤ 300 ∧
      ∃ gt qs, decode gt = some qs ∧
        (generate_questions_after_reset decode s n api).questions = qs) ∨
    ((generate_questions_after_reset decode s n api).errors ≠ [] ∧
      (generate_questions_after_reset decode s n api).state = s ∧
      (generate_questions_after_reset decode s n api).questions = []) := by
  unfold generate_questions_after_reset
  by_cases hq : s.question_count + n > 300
  · rw [if_pos hq]
    right
    exact ⟨by simp, rfl, rfl⟩
  · rw [if_neg hq]
    cases api with
    | exc msg =>
        right
        exact ⟨by simp, rfl, rfl⟩
    | response status body =>
        dsimp only
        by_cases hst : status ≠ 200
        · rw [if_pos hst]
          right
          exact ⟨by simp, rfl, rfl⟩
        · rw [if_neg hst]
          by_cases hf : jsonFalsy body = true
          · rw [if_pos hf]
            right
            exact ⟨by simp, rfl, rfl⟩
          · rw [if_neg hf]
            rcases hgt : extractGeneratedText body with _ | gt
            · right
              exact ⟨by simp, rfl, rfl⟩
            · dsimp only
              by_cases hne : gt ≠ ""
              · rw [if_pos hne]
                rcases hdec : decode gt with _ | qs
                · right
                  exact ⟨by simp, rfl, rfl⟩
                · left
                  exact ⟨rfl, rfl, by omega, gt, qs, hdec, rfl⟩
              · rw [if_neg hne]
                right
                exact ⟨by simp, rfl, rfl⟩

/-- Behaviour of the countdown loop, by induction on the remaining fuel
`end_time - t`: the flag can only turn true through a click or stay as given,
a false flag at exit means the deadline was reached, and time only moves
forward, never past `max t end_time`. -/
lemma countdown_loop_spec (e : Nat) (c : Bool) :
    ∀ (n t : Nat) (sub : Bool), e - t ≤ n →
      ((countdown_loop e c t sub).2 = true → c = true ∨ sub = true) ∧
      ((countdown_loop e c t sub).2 = false →
        sub = false ∧ e ≤ (countdown_loop e c t sub).1) ∧
      t ≤ (countdown_loop e c t sub).1 ∧
      (countdown_loop e c t sub).1 ≤ max t e := by
  intro n
  induction n with
  | zero =>
      intro t sub h0
      have hte : e ≤ t := by omega
      rw [countdown_loop, dif_neg (by omega)]
      exact ⟨fun hsub => Or.inr hsub, fun hsub => ⟨hsub, hte⟩, le_refl t, le_max_left t e⟩
  | succ n ih =>
      intro t sub h
      rw [countdown_loop]
      by_cases hcond : t < e ∧ sub = false
      · rw [dif_pos hcond]
        by_cases hc : c = true
        · rw [if_pos hc]
          exact ⟨fun _ => Or.inl hc, fun hf => by simp at hf, Nat.le_succ t, by omega⟩
        · rw [if_neg hc]
          obtain ⟨h1, h2, h3, h4⟩ := ih (t + 1) sub (by omega)
          refine ⟨h1, fun hf => ⟨hcond.2, (h2 hf).2⟩, le_trans (Nat.le_succ t) h3, ?_⟩
          omega
      · rw [dif_neg hcond]
        refine ⟨fun hsub => Or.inr hsub, fun hsub => ⟨hsub, ?_⟩, le_refl t, le_max_left t e⟩
        rcases Nat.lt_or_ge t e with hlt | hge
        · exact absurd ⟨hlt, hsub⟩ hcond
        · exact hge

/-! ## Claims -/

/-- C1: the final score computed by the scoring loop of `conduct_quiz` equals
the sum over all questions of +2 when the selected option letter (the first
character of the chosen radio label) equals the correct-answer
letter, -0.66 when an option was selected with a differing letter, and 0 when
no option was selected. -/
theorem conduct_quiz_score_is_sum (qs : List Question) (rs : List (Option String)) :
    computeScore qs rs = ((qs.zip rs).map (fun p => questionScore p.1 p.2)).sum :=
  computeScore_eq_sum qs rs

/-- C4: `reset_question_limit` zeroes the counter and stamps the current date
exactly when the stored date differs from the current date, and leaves the
state unchanged when the stored date equals the current date. -/
theorem reset_question_limit_iff_date_differs (s : SessionState) (d : String) :
    (s.last_reset ≠ d →
      reset_question_limit s d = { question_count := 0, last_reset := d }) ∧
    (s.last_reset = d → reset_question_limit s d = s) := by
  constructor <;> intro h <;> simp [reset_question_limit, h]

theorem reset_question_limit_iff_date_differs_witness :
    reset_question_limit ⟨7, "2025-03-01"⟩ "2025-03-02"
        = ⟨0, "2025-03-02"⟩ ∧
    reset_question_limit ⟨7, "2025-03-02"⟩ "2025-03-02"
        = ⟨7, "2025-03-02"⟩ :=
  ⟨(reset_question_limit_iff_date_differs ⟨7, "2025-03-01"⟩ "2025-03-02").1 (by decide),
   (reset_question_limit_iff_date_differs ⟨7, "2025-03-02"⟩ "2025-03-02").2 rfl⟩

/-- C5: within one calendar day `reset_question_limit` is idempotent: a second
call with the same current date leaves the session state unchanged, so the
counter is reset at most once per day boundary. -/
theorem reset_question_limit_idempotent (s : SessionState) (d : String) :
    reset_question_limit (reset_question_limit s d) d = reset_question_limit s d := by
  by_cases h : s.last_reset = d
  · simp [reset_question_limit, h]
  · simp [reset_question_limit, h]

/-- C10: the score is not clamped at zero: when no question is answered
correctly and at least one question is answered incorrectly, the computed
score is strictly negative (while the displayed maximum is
`num_questions * 2`). -/
theorem score_not_clamped_below_zero (qs : List Question) (rs : List (Option String))
    (hc : ∀ p ∈ qs.zip rs, answeredCorrectly p.1 p.2 = false)
    (hw : ∃ p ∈ qs.zip rs, answeredWrongly p.1 p.2 = true) :
    computeScore qs rs < 0 ∧ computeScore qs rs < maxDisplayedScore qs.length := by
  have hscore : computeScore qs rs < 0 := by
    rw [computeScore_eq_sum]
    apply list_sum_neg
    · intro x hx
      rcases List.mem_map.mp hx with ⟨p, hp, rfl⟩
      have hcp := hc p hp
      cases hpa : p.2 with
      | none => simp [questionScore, hpa]
      | some a =>
          have : ¬ a.take 1 = p.1.answer := by
            intro he
            rw [hpa] at hcp
            simp [answeredCorrectly, he] at hcp
          simp only [questionScore, hpa, if_neg this]
          norm_num
    · rcases hw with ⟨p, hp, hwp⟩
      refine ⟨questionScore p.1 p.2, List.mem_map.mpr ⟨p, hp, rfl⟩, ?_⟩
      cases hpa : p.2 with
      | none => rw [hpa] at hwp; simp [answeredWrongly] at hwp
      | some a =>
          have : ¬ a.take 1 = p.1.answer := by
            intro he
            rw [hpa] at hwp
            simp [answeredWrongly, he] at hwp
          simp only [questionScore, hpa, if_neg this]
          norm_num
  refine ⟨hscore, lt_of_lt_of_le hscore ?_⟩
  unfold maxDisplayedScore
  positivity

/-- C2: the counter starts at 0, `generate_questions` refuses (empty list,
error shown, state untouched) whenever the post-reset counter plus the request
would exceed 300, and `question_count ≤ 300` is preserved by the reset and by
every call to `generate_questions`. -/
theorem question_count_le_300_invariant (decode : String → Option (List Question))
    (d : String) (s0 : SessionState) (n : Nat) (api : HttpResult)
    (h : s0.question_count ≤ 300) :
    (initialState d).question_count = 0 ∧
    (reset_question_limit s0 d).question_count ≤ 300 ∧
    (generate_questions decode d s0 n api).state.question_count ≤ 300 ∧
    (300 < (reset_question_limit s0 d).question_count + n →
      (generate_questions decode d s0 n api).questions = [] ∧
      (generate_questions decode d s0 n api).errors ≠ [] ∧
      (generate_questions decode d s0 n api).state = reset_question_limit s0 d) := by
  have hs : (reset_question_limit s0 d).question_count ≤ 300 :=
    reset_question_limit_count_le s0 d h
  refine ⟨rfl, hs, ?_, ?_⟩
  · rcases generate_questions_after_reset_spec decode (reset_question_limit s0 d) n api
      with ⟨_, hstate, hle, _⟩ | ⟨_, hstate, _⟩
    · unfold generate_questions
      rw [hstate]
      exact hle
    · unfold generate_questions
      rw [hstate]
      exact hs
  · intro hover
    rcases generate_questions_after_reset_spec decode (reset_question_limit s0 d) n api
      with ⟨_, _, hle, _⟩ | ⟨herr, hstate, hqs⟩
    · omega
    · exact ⟨hqs, herr, hstate⟩

theorem question_count_le_300_invariant_witness :
    (initialState "2025-03-02").question_count = 0 ∧
    (reset_question_limit ⟨295, "2025-03-02"⟩ "2025-03-02").question_count ≤ 300 ∧
    (generate_questions (fun _ => some []) "2025-03-02" ⟨295, "2025-03-02"⟩ 10
      (HttpResult.exc "boom")).state.question_count ≤ 300 ∧
    (300 < (reset_question_limit ⟨295, "2025-03-02"⟩ "2025-03-02").question_count + 10 →
      (generate_questions (fun _ => some []) "2025-03-02" ⟨295, "2025-03-02"⟩ 10
        (HttpResult.exc "boom")).questions = [] ∧
      (generate_questions (fun _ => some []) "2025-03-02" ⟨295, "2025-03-02"⟩ 10
        (HttpResult.exc "boom")).errors ≠ [] ∧
      (generate_questions (fun _ => some []) "2025-03-02" ⟨295, "2025-03-02"⟩ 10
        (HttpResult.exc "boom")).state = reset_question_limit ⟨295, "2025-03-02"⟩ "2025-03-02") :=
  question_count_le_300_invariant (fun _ => some []) "2025-03-02"
    ⟨295, "2025-03-02"⟩ 10 (HttpResult.exc "boom") (by decide)

/-- C3: every call to `generate_questions` either succeeds with the decoded
payload and no error, or ends on a failure path that returns the empty list
and displays an error string; the embedding is a total function, so no
failure escapes as an exception. -/
theorem generate_questions_failures_return_empty
    (decode : String → Option (List Question)) (d : String) (s0 : SessionState)
    (n : Nat) (api : HttpResult) :
    ((generate_questions decode d s0 n api).errors = [] ∧
      ∃ gt qs, decode gt = some qs ∧
        (generate_questions decode d s0 n api).questions = qs) ∨
    ((generate_questions decode d s0 n api).questions = [] ∧
      (generate_questions decode d s0 n api).errors ≠ []) := by
  rcases generate_questions_after_reset_spec decode (reset_question_limit s0 d) n api
    with ⟨herr, _, _, hex⟩ | ⟨herr, _, hqs⟩
  · left; exact ⟨herr, hex⟩
  · right; exact ⟨hqs, herr⟩

/-- C8: on the success path the counter is charged by exactly the requested
`num_questions`, whatever list the decoded payload carries. -/
theorem quota_charged_by_requested_count (decode : String → Option (List Question))
    (d : String) (s0 : SessionState) (n : Nat) (api : HttpResult)
    (h : (generate_questions decode d s0 n api).errors = []) :
    (generate_questions decode d s0 n api).state.question_count
        = (reset_question_limit s0 d).question_count + n ∧
    ∃ gt qs, decode gt = some qs ∧
      (generate_questions decode d s0 n api).questions = qs := by
  rcases generate_questions_after_reset_spec decode (reset_question_limit s0 d) n api
    with ⟨_, hstate, _, hex⟩ | ⟨herr, _, _⟩
  · refine ⟨?_, hex⟩
    unfold generate_questions
    rw [hstate]
  · exact absurd h herr

theorem quota_charged_by_requested_count_witness :
    (generate_questions constDecode "2025-03-02" ⟨0, "2025-03-02"⟩ 10
      (HttpResult.response 200 (ResponseJson.jdict [("generated_text", "payload")]))).errors
        = [] ∧
    ((generate_questions constDecode "2025-03-02" ⟨0, "2025-03-02"⟩ 10
      (HttpResult.response 200 (ResponseJson.jdict [("generated_text", "payload")]))).state.question_count
        = (reset_question_limit ⟨0, "2025-03-02"⟩ "2025-03-02").question_count + 10 ∧
      ∃ gt qs, constDecode gt = some qs ∧
        (generate_questions constDecode "2025-03-02" ⟨0, "2025-03-02"⟩ 10
          (HttpResult.response 200 (ResponseJson.jdict [("generated_text", "payload")]))).questions
            = qs) :=
  ⟨by decide,
   quota_charged_by_requested_count constDecode "2025-03-02"
     ⟨0, "2025-03-02"⟩ 10
     (HttpResult.response 200 (ResponseJson.jdict [("generated_text", "payload")]))
     (by decide)⟩

/-- C9: `generate_questions` is atomic on failure: whenever an error is
displayed the state equals the state after the entry reset and the result is
empty, and the counter changes only when a decoded payload is returned with
no error. -/
theorem quota_unchanged_on_failure (decode : String → Option (List Question))
    (d : String) (s0 : SessionState) (n : Nat) (api : HttpResult) :
    ((generate_questions decode d s0 n api).errors ≠ [] →
      (generate_questions decode d s0 n api).state = reset_question_limit s0 d ∧
      (generate_questions decode d s0 n api).questions = []) ∧
    ((generate_questions decode d s0 n api).state.question_count
        ≠ (reset_question_limit s0 d).question_count →
      ∃ gt qs, decode gt = some qs ∧
        (generate_questions decode d s0 n api).questions = qs ∧
        (generate_questions decode d s0 n api).errors = []) := by
  rcases generate_questions_after_reset_spec decode (reset_question_limit s0 d) n api
    with ⟨herr, hstate, _, gt, qs, hdec, hqs⟩ | ⟨herr, hstate, hqs⟩
  · constructor
    · intro hne
      exact absurd herr hne
    · intro _
      exact ⟨gt, qs, hdec, hqs, herr⟩
  · constructor
    · intro _
      exact ⟨hstate, hqs⟩
    · intro hc
      unfold generate_questions at hc
      rw [hstate] at hc
      exact absurd rfl hc

theorem quota_unchanged_on_failure_witness :
    (generate_questions (fun _ => some []) "2025-03-02" ⟨5, "2025-03-02"⟩ 10
      (HttpResult.exc "boom")).errors ≠ [] ∧
    ((generate_questions (fun _ => some []) "2025-03-02" ⟨5, "2025-03-02"⟩ 10
      (HttpResult.exc "boom")).state
        = reset_question_limit ⟨5, "2025-03-02"⟩ "2025-03-02" ∧
     (generate_questions (fun _ => some []) "2025-03-02" ⟨5, "2025-03-02"⟩ 10
      (HttpResult.exc "boom")).questions = []) :=
  ⟨by decide,
   (quota_unchanged_on_failure (fun _ => some []) "2025-03-02"
     ⟨5, "2025-03-02"⟩ 10 (HttpResult.exc "boom")).1 (by decide)⟩

/-- C6: starting from `submitted = false`, the flag ends up true only through
the Submit button having been clicked or the countdown deadline having been
reached; no other step of the quiz loop sets it. -/
theorem submitted_only_by_click_or_deadline (e : Nat) (c : Bool) (t0 : Nat)
    (h : (run_countdown e c t0).2 = true) :
    c = true ∨ e ≤ (run_countdown e c t0).1 := by
  obtain ⟨h1, h2, _, _⟩ := countdown_loop_spec e c (e - t0) t0 false (le_refl _)
  cases hsub : (countdown_loop e c t0 false).2 with
  | false =>
      right
      have := (h2 hsub).2
      simpa [run_countdown] using this
  | true =>
      rcases h1 hsub with hc | hfalse
      · exact Or.inl hc
      · cases hfalse

theorem submitted_only_by_click_or_deadline_witness :
    (run_countdown 1 false 0).2 = true ∧
    (false = true ∨ 1 ≤ (run_countdown 1 false 0).1) := by
  have hev : (run_countdown 1 false 0).2 = true := by
    simp [run_countdown, countdown_loop, auto_submit]
  exact ⟨hev, submitted_only_by_click_or_deadline 1 false 0 hev⟩

/-- C7: with the deadline `end_time = start_time + num_questions * 15`, the
countdown loop terminates without looping past the deadline: the exit time
never exceeds the deadline, an exit with the flag set comes from the button
click, an exit with the flag clear happens at or after the deadline, and the
auto-submit check then always leaves the quiz submitted. -/
theorem countdown_terminates_at_deadline (num_questions : Nat) (c : Bool) (t0 : Nat) :
    (countdown_loop (t0 + total_time num_questions) c t0 false).1
        ≤ t0 + total_time num_questions ∧
    ((countdown_loop (t0 + total_time num_questions) c t0 false).2 = true →
      c = true) ∧
    ((countdown_loop (t0 + total_time num_questions) c t0 false).2 = false →
      t0 + total_time num_questions
        ≤ (countdown_loop (t0 + total_time num_questions) c t0 false).1) ∧
    (run_countdown (t0 + total_time num_questions) c t0).2 = true := by
  set e := t0 + total_time num_questions with he
  obtain ⟨h1, h2, h3, h4⟩ := countdown_loop_spec e c (e - t0) t0 false (le_refl _)
  refine ⟨le_trans h4 (by omega), ?_, fun hf => (h2 hf).2, ?_⟩
  · intro ht
    rcases h1 ht with hc | hfalse
    · exact hc
    · cases hfalse
  · unfold run_countdown auto_submit
    cases hsub : (countdown_loop e c t0 false).2 with
    | false =>
        have := (h2 hsub).2
        simp [this]
    | true => simp [hsub]

set_option maxRecDepth 4000 in
theorem countdown_terminates_at_deadline_witness :
    ((countdown_loop (0 + total_time 1) false 0 false).2 = false ∧
      (countdown_loop (0 + total_time 1) false 0 false).1 ≤ 0 + total_time 1 ∧
      0 + total_time 1 ≤ (countdown_loop (0 + total_time 1) false 0 false).1 ∧
      (run_countdown (0 + total_time 1) false 0).2 = true) ∧
    ((countdown_loop (0 + total_time 1) true 0 false).2 = true ∧ true = true) := by
  have hev1 : (countdown_loop (0 + total_time 1) false 0 false).2 = false := by
    simp [countdown_loop, total_time]
  have hev2 : (countdown_loop (0 + total_time 1) true 0 false).2 = true := by
    simp [countdown_loop, total_time]
  exact ⟨⟨hev1, (countdown_terminates_at_deadline 1 false 0).1,
          (countdown_terminates_at_deadline 1 false 0).2.2.1 hev1,
          (countdown_terminates_at_deadline 1 false 0).2.2.2⟩,
         hev2, (countdown_terminates_at_deadline 1 true 0).2.1 hev2⟩

theorem score_not_clamped_below_zero_witness :
    (∀ p ∈ ([Question.mk "Q" ["w", "x", "y", "z"] "A"].zip [some "B. x"]),
      answeredCorrectly p.1 p.2 = false) ∧
    (∃ p ∈ ([Question.mk "Q" ["w", "x", "y", "z"] "A"].zip [some "B. x"]),
      answeredWrongly p.1 p.2 = true) ∧
    computeScore [Question.mk "Q" ["w", "x", "y", "z"] "A"] [some "B. x"] < 0 ∧
    computeScore [Question.mk "Q" ["w", "x", "y", "z"] "A"] [some "B. x"]
      < maxDisplayedScore [Question.mk "Q" ["w", "x", "y", "z"] "A"].length :=
  ⟨by decide, by decide,
   score_not_clamped_below_zero _ _ (by decide) (by decide)⟩

end QuizGen
